import Mathlib

set_option maxRecDepth 100000

/-!
Verification of the METAR acquisition-and-normalization pipeline of
`metar_service.py` (with the caller-facing branch of `app.py`).

The embedding models Python/JSON values shallowly:

* JSON values are `JVal`; a decoded JSON object (Python `dict`) is an
  association list `Obj` with string keys (keys are assumed unique, as
  produced by JSON decoding).
* Numbers are exact decimal fractions `Dec` (mantissa `m` over `10 ^ e`).
  JSON numerals are decimal, and every arithmetic step the program performs
  (divide by 1000, multiply by 1.60934) stays inside decimal fractions, so
  this models the computation exactly; Python performs it in binary
  floating point, which agrees with the exact-decimal result for all the
  inputs exercised here (the difference could only show within rounding
  distance of a representation boundary).
* A Python expression that may raise is modelled in `Except Unit`; an
  expression that cannot raise is a plain function.
-/

/-- Exact decimal fraction: the rational number `m / 10 ^ e`.  This is the
model of a Python/JSON number. -/
structure Dec where
  m : Int
  e : Nat
  deriving DecidableEq, Repr

/-- JSON value as decoded by Python's `json` module: `None`, booleans,
numbers, strings, lists and dicts. -/
inductive JVal where
  | jnull
  | jbool (b : Bool)
  | jnum (d : Dec)
  | jstr (s : String)
  | jarr (xs : List JVal)
  | jobj (fields : List (String × JVal))

open JVal

/-- A decoded JSON object (Python dict) as an association list. -/
def Obj : Type := List (String × JVal)

/-- Python truthiness (`bool(v)`): `None`, `False`, zero, and empty
strings/lists/dicts are falsy, everything else truthy. -/
def truthy : JVal → Bool
  | jnull => false
  | jbool b => b
  | jnum d => d.m != 0
  | jstr s => s != ""
  | jarr xs => !xs.isEmpty
  | jobj fs => !fs.isEmpty

/-- Dictionary lookup with default: Python's `d.get(k, dflt)` on a dict. -/
def getD (o : Obj) (k : String) (dflt : JVal) : JVal :=
  match List.find? (fun p => p.1 == k) o with
  | some p => p.2
  | none => dflt

/-- Python's `k in d` membership test on a dict. -/
def pyIn (k : String) (o : Obj) : Bool :=
  (List.find? (fun p => p.1 == k) o).isSome

/-- Python's `v.get(k, dflt)` on a value that may fail to be a dict: raises
(`AttributeError`) unless `v` is a dict. -/
def jget (v : JVal) (k : String) (dflt : JVal) : Except Unit JVal :=
  match v with
  | jobj fs => .ok (getD fs k dflt)
  | _ => .error ()

/-- Python's `v == "N/A"` specialised comparison used by the parsers: only a
string with those characters compares equal. -/
def isNA : JVal → Bool
  | jstr s => s == "N/A"
  | _ => false

/-- Renders `n` zero-padded to two digits (`strftime` style). -/
def pad2 (n : Nat) : String :=
  if n < 10 then "0" ++ toString n else toString n

/-- Strips factors of ten from the mantissa while the exponent allows,
normalizing a decimal fraction (structural in the exponent). -/
def stripTens (m : Int) : Nat → Int × Nat
  | 0 => (m, 0)
  | n + 1 => if m % 10 == 0 then stripTens (m / 10) n else (m, n + 1)

/-- Decimal-fraction rendering used by `str()` on numbers.  Integers
(`e = 0`) render exactly as Python ints do; other decimals render with a
decimal point after stripping trailing zeros (Python float `repr` agrees on
every short decimal the program handles; no claim exercises anything
else). -/
def decStr (d : Dec) : String :=
  let (m, e) := stripTens d.m d.e
  if e = 0 then toString m
  else
    let a := m.natAbs
    let digits := toString a
    let sign := if m < 0 then "-" else ""
    if digits.length ≤ e then
      sign ++ "0." ++ String.mk (List.replicate (e - digits.length) '0') ++ digits
    else
      sign ++ String.mk (digits.data.take (digits.length - e)) ++ "." ++
        String.mk (digits.data.drop (digits.length - e))

/-- Python `str()` of a JSON value.  Strings pass through; numbers render
via `decStr`; `None`/`True`/`False` render as Python spells them.  Nested
containers are rendered opaquely (no claim applies `str()` to a container;
the parsers only interpolate scalars or whole raw-text fields). -/
def pyStr : JVal → String
  | jnull => "None"
  | jbool b => if b then "True" else "False"
  | jnum d => decStr d
  | jstr s => s
  | jarr _ => "[...]"
  | jobj _ => "{...}"

/-- Round-half-even of the fraction `num / den` (with `den > 0`) to the
nearest integer — the rounding Python's string formatting applies. -/
def rndHalfEven (num den : Int) : Int :=
  let q := Int.fdiv num den
  let r := num - q * den
  if 2 * r < den then q
  else if 2 * r > den then q + 1
  else if q % 2 == 0 then q else q + 1

/-- Python's `f"...:.1f"` formatting of the decimal value `d`: round to one
decimal (ties to even) and print with exactly one digit after the point. -/
def formatOneDecimal (d : Dec) : String :=
  let n := rndHalfEven (d.m * 10) (10 ^ d.e)
  let a := n.natAbs
  let sign := if d.m < 0 then "-" else ""
  sign ++ toString (a / 10) ++ "." ++ toString (a % 10)

/-- Value of a digit character. -/
def digitVal (c : Char) : Nat := c.toNat - '0'.toNat

/-- Numeric value of a digit string (most significant first). -/
def digitsToNat (ds : List Char) : Nat :=
  ds.foldl (fun acc c => acc * 10 + digitVal c) 0

/-- Applies a base-ten exponent `p` to a decimal fraction. -/
def applyExp (d : Dec) (p : Int) : Dec :=
  if p ≥ 0 then
    let pn := p.toNat
    if pn ≥ d.e then ⟨d.m * (10 : Int) ^ (pn - d.e), 0⟩ else ⟨d.m, d.e - pn⟩
  else ⟨d.m, d.e + (-p).toNat⟩

/-- Parses an optional sign, returning the sign (`1` or `-1`) and rest. -/
def parseSign : List Char → Int × List Char
  | '+' :: rest => (1, rest)
  | '-' :: rest => (-1, rest)
  | cs => (1, cs)

/-- Splits a leading run of decimal digits from the rest. -/
def spanDigits (cs : List Char) : List Char × List Char :=
  (cs.takeWhile Char.isDigit, cs.dropWhile Char.isDigit)

/-- Parses the decimal-string forms accepted by Python's `float()`:
optional sign, digits with an optional fractional part (at least one digit
overall), and an optional exponent.  (`inf`/`nan` spellings and digit
underscores are not modelled; no claim uses them.) -/
def parseFloatChars (cs : List Char) : Option Dec :=
  let (sgn, cs1) := parseSign cs
  let (ip, cs2) := spanDigits cs1
  let (fp, cs3) :=
    match cs2 with
    | '.' :: rest => spanDigits rest
    | _ => ([], cs2)
  let consumedDot := match cs2 with | '.' :: _ => true | _ => false
  let afterFrac := if consumedDot then cs3 else cs2
  if ip.isEmpty ∧ fp.isEmpty then none
  else
    let base : Dec := ⟨sgn * (digitsToNat (ip ++ fp) : Int), fp.length⟩
    match afterFrac with
    | [] => some base
    | 'e' :: rest => parseExpPart base rest
    | 'E' :: rest => parseExpPart base rest
    | _ => none
where
  /-- Parses the mandatory digits of an exponent part and applies it. -/
  parseExpPart (base : Dec) (cs : List Char) : Option Dec :=
    let (esgn, cs1) := parseSign cs
    let (eds, cs2) := spanDigits cs1
    if eds.isEmpty ∨ !cs2.isEmpty then none
    else some (applyExp base (esgn * (digitsToNat eds : Int)))

/-- Whitespace characters stripped by Python's `float()` around a numeric
string. -/
def isPySpace (c : Char) : Bool :=
  c == ' ' ∨ c == '\t' ∨ c == '\n' ∨ c == '\r'

/-- Strips leading and trailing whitespace from a character list. -/
def trimChars (cs : List Char) : List Char :=
  ((cs.dropWhile isPySpace).reverse.dropWhile isPySpace).reverse

/-- Python's `float(v)` on a JSON value: numbers pass through, booleans
become 0/1, strings are parsed (surrounding whitespace stripped), anything
else raises `TypeError`. -/
def pyFloat (v : JVal) : Except Unit Dec :=
  match v with
  | jnum d => .ok d
  | jbool b => .ok ⟨if b then 1 else 0, 0⟩
  | jstr s =>
    match parseFloatChars (trimChars s.data) with
    | some d => .ok d
    | none => .error ()
  | _ => .error ()

/-- Python iteration `for x in v`: lists yield elements, dicts yield their
keys, strings yield one-character strings; other values raise
`TypeError`. -/
def pyIter : JVal → Except Unit (List JVal)
  | jarr xs => .ok xs
  | jobj fs => .ok (fs.map (fun p => jstr p.1))
  | jstr s => .ok (s.data.map (fun c => jstr (String.mk [c])))
  | _ => .error ()

example : truthy (jnum ⟨0, 0⟩) = false := by decide
example : decStr ⟨25, 0⟩ = "25" := by decide
example : decStr ⟨965604, 5⟩ = "9.65604" := rfl
example : formatOneDecimal ⟨965604, 5⟩ = "9.7" := rfl
example : formatOneDecimal ⟨9000, 3⟩ = "9.0" := rfl
example : pyFloat (jstr "9000") = .ok ⟨9000, 0⟩ := rfl
example : pyFloat (jstr "6") = .ok ⟨6, 0⟩ := rfl
example : pyFloat (jstr "unknown") = .error () := rfl
example : pyFloat (jstr "1.5e2") = .ok ⟨150, 0⟩ := rfl

/-! ## Observation-time reformatting (fallback schema)

`parse_aviationweather_metar` tries
`datetime.strptime(t, "%Y-%m-%dT%H:%M:%SZ").strftime("%d-%b-%Y %H:%M UTC")`
and on any failure falls back to the original value. -/

/-- Calendar timestamp produced by `strptime`. -/
structure DT where
  year : Nat
  month : Nat
  day : Nat
  hour : Nat
  minute : Nat
  second : Nat
  deriving DecidableEq, Repr

/-- Whether `y` is a Gregorian leap year. -/
def isLeap (y : Nat) : Bool :=
  (y % 4 == 0 ∧ y % 100 != 0) ∨ y % 400 == 0

/-- Days in month `m` of year `y` (months numbered from 1). -/
def daysInMonth (y m : Nat) : Nat :=
  if m == 2 then (if isLeap y then 29 else 28)
  else if m == 4 ∨ m == 6 ∨ m == 9 ∨ m == 11 then 30
  else 31

/-- Takes exactly `n` digit characters, returning their value and the
rest. -/
def takeDigits (n : Nat) (cs : List Char) : Option (Nat × List Char) :=
  let ds := cs.take n
  if ds.length = n ∧ ds.all Char.isDigit then some (digitsToNat ds, cs.drop n)
  else none

/-- Expects a literal character at the head of the input. -/
def expectChar (c : Char) : List Char → Option (List Char)
  | x :: rest => if x == c then some rest else none
  | [] => none

/-- Parses `"%Y-%m-%dT%H:%M:%SZ"` (the fallback provider's timestamp
format) with calendar validation, as `datetime.strptime` does.  Returns
`none` where Python would raise `ValueError` (or `TypeError` for a
non-string input, handled by the caller). -/
def parseObsDT (s : String) : Option DT := do
  let cs := s.data
  let (y, cs) ← takeDigits 4 cs
  let cs ← expectChar '-' cs
  let (mo, cs) ← takeDigits 2 cs
  let cs ← expectChar '-' cs
  let (d, cs) ← takeDigits 2 cs
  let cs ← expectChar 'T' cs
  let (h, cs) ← takeDigits 2 cs
  let cs ← expectChar ':' cs
  let (mi, cs) ← takeDigits 2 cs
  let cs ← expectChar ':' cs
  let (sec, cs) ← takeDigits 2 cs
  let cs ← expectChar 'Z' cs
  if cs.isEmpty ∧ 1 ≤ y ∧ 1 ≤ mo ∧ mo ≤ 12 ∧ 1 ≤ d ∧ d ≤ daysInMonth y mo ∧
      h ≤ 23 ∧ mi ≤ 59 ∧ sec ≤ 59 then
    some ⟨y, mo, d, h, mi, sec⟩
  else none

/-- Abbreviated month name as `strftime`'s `%b` renders it. -/
def monthAbbrev (m : Nat) : String :=
  match m with
  | 1 => "Jan" | 2 => "Feb" | 3 => "Mar" | 4 => "Apr" | 5 => "May" | 6 => "Jun"
  | 7 => "Jul" | 8 => "Aug" | 9 => "Sep" | 10 => "Oct" | 11 => "Nov" | 12 => "Dec"
  | _ => ""

/-- Renders a timestamp with `strftime("%d-%b-%Y %H:%M UTC")`. -/
def fmtObsDT (t : DT) : String :=
  pad2 t.day ++ "-" ++ monthAbbrev t.month ++ "-" ++ toString t.year ++ " " ++
    pad2 t.hour ++ ":" ++ pad2 t.minute ++ " UTC"

/-- The guarded time conversion of `parse_aviationweather_metar`: succeeds
only on a string in the expected format; anything else is caught (`except`)
by the source and the original value is used. -/
def reformatObsTime (v : JVal) : Option String :=
  match v with
  | jstr s => (parseObsDT s).map fmtObsDT
  | _ => none

example : reformatObsTime (jstr "2023-05-01T05:20:00Z") =
    some "01-May-2023 05:20 UTC" := rfl
example : reformatObsTime (jstr "2023-02-30T05:20:00Z") = none := rfl

/-! ## The schema-specific parsers

`parse_checkwx_metar` and `parse_aviationweather_metar` each build the list
of seven display lines inside a `try:` whose `except:` degrades to a
single-line raw-METAR fallback.  The embedding exposes the line-list
builders (`checkwxResponse`, `aviationweatherResponse`) in `Except Unit`;
the parser functions join the lines or take the degraded path exactly as
the source's handlers do. -/

/-- Header line shared by both schema parsers. -/
def headerLine : String := "🛫 *GATWICK AIRPORT (EGKK) METAR* 🛬"

/-- Wind line body shared by both schema parsers: direction-at-speed, with
the gusting suffix exactly when the gust value is truthy. -/
def windInfo (direction speed gust : JVal) : String :=
  pyStr direction ++ "° at " ++ pyStr speed ++ " knots" ++
    (if truthy gust then ", gusting to " ++ pyStr gust ++ " knots" else "")

/-- The cloud-layer loop shared (with different key names) by both parsers:
`layer.get(codeKey, "")` and `layer.get(altKey, "")`, keeping an entry only
when both are truthy.  A non-dict layer raises (`AttributeError`). -/
def cloudEntries (codeKey altKey : String) : List JVal → Except Unit (List String)
  | [] => .ok []
  | c :: rest => do
    let code ← jget c codeKey (jstr "")
    let altitude ← jget c altKey (jstr "")
    let tail ← cloudEntries codeKey altKey rest
    if truthy code ∧ truthy altitude then
      .ok ((pyStr code ++ " at " ++ pyStr altitude ++ " ft") :: tail)
    else .ok tail

/-- Joined cloud text from collected entries: comma-joined, or the
`"No cloud data"` placeholder when no layer qualified. -/
def joinClouds (layers : List String) : String :=
  if layers.isEmpty then "No cloud data" else String.intercalate ", " layers

/-- Cloud block of `parse_checkwx_metar` (lines 121-131): guarded by
presence and truthiness of `"clouds"`, then a `for` over its value. -/
def checkwxClouds (o : Obj) : Except Unit String :=
  if pyIn "clouds" o ∧ truthy (getD o "clouds" jnull) then do
    let items ← pyIter (getD o "clouds" jnull)
    let layers ← cloudEntries "code" "base_feet_agl" items
    .ok (joinClouds layers)
  else .ok "No cloud data"

/-- Visibility block of `parse_checkwx_metar` (lines 115-118): meters to
kilometres, one decimal; an unparseable value raises out of the whole
extraction. -/
def checkwxVisibility (visibility : JVal) : Except Unit String :=
  if isNA visibility then .ok "N/A"
  else do
    let q ← pyFloat visibility
    .ok (formatOneDecimal ⟨q.m, q.e + 3⟩ ++ " km")

/-- Line-list extraction of `parse_checkwx_metar` (the body of its `try:`,
lines 105-149), in the source's evaluation order. -/
def checkwxResponse (o : Obj) : Except Unit (List String) := do
  let raw_metar := getD o "raw" (jstr "N/A")
  let time := getD o "observed" (jstr "N/A")
  let temp_c ← jget (getD o "temperature" (jobj [])) "celsius" (jstr "N/A")
  let wind_speed ← jget (getD o "wind" (jobj [])) "speed_kts" (jstr "N/A")
  let wind_direction ← jget (getD o "wind" (jobj [])) "degrees" (jstr "N/A")
  let wind_gust ← jget (getD o "wind" (jobj [])) "gust_kts" (jstr "")
  let visibility ← jget (getD o "visibility" (jobj [])) "meters" (jstr "N/A")
  let visibility_km ← checkwxVisibility visibility
  let clouds ← checkwxClouds o
  let wind_info := windInfo wind_direction wind_speed wind_gust
  .ok [headerLine,
    "⏰ Observed: " ++ pyStr time,
    "🌡️ Temperature: " ++ pyStr temp_c ++ "°C",
    "💨 Wind: " ++ wind_info,
    "👁️ Visibility: " ++ visibility_km,
    "☁️ Clouds: " ++ clouds,
    "📊 Raw METAR: " ++ pyStr raw_metar]

/-- Parser for the primary (CheckWX) schema: the joined seven-line report,
or on any extraction failure the degraded single line built from the
`"raw"` field (lines 151-154). -/
def parse_checkwx_metar (o : Obj) : String :=
  match checkwxResponse o with
  | .ok lines => String.intercalate "\n\n" lines
  | .error _ => "Gatwick METAR: " ++ pyStr (getD o "raw" (jstr "Data unavailable"))

/-- Visibility block of `parse_aviationweather_metar` (lines 177-185):
statute miles to kilometres with a per-field guard that keeps the original
value and unit when the numeric conversion fails. -/
def aviationweatherVisibility (o : Obj) : String :=
  let vsm := getD o "visibility_statute_mi" (jstr "N/A")
  if isNA vsm then "N/A"
  else
    match pyFloat vsm with
    | .ok q => formatOneDecimal ⟨q.m * 160934, q.e + 5⟩ ++ " km"
    | .error _ => pyStr vsm ++ " miles"

/-- Cloud block of `parse_aviationweather_metar` (lines 187-202): a list of
layers is looped over, a single dict layer is read directly, any other
shape leaves the placeholder. -/
def aviationweatherClouds (o : Obj) : Except Unit String :=
  if pyIn "sky_condition" o then
    match getD o "sky_condition" jnull with
    | jarr xs => do
      let layers ← cloudEntries "sky_cover" "cloud_base_ft_agl" xs
      .ok (joinClouds layers)
    | jobj fs =>
      let code := getD fs "sky_cover" (jstr "")
      let altitude := getD fs "cloud_base_ft_agl" (jstr "")
      if truthy code ∧ truthy altitude then
        .ok (pyStr code ++ " at " ++ pyStr altitude ++ " ft")
      else .ok "No cloud data"
    | _ => .ok "No cloud data"
  else .ok "No cloud data"

/-- Line-list extraction of `parse_aviationweather_metar` (the body of its
`try:`, lines 158-220), in the source's evaluation order. -/
def aviationweatherResponse (o : Obj) : Except Unit (List String) := do
  let raw_metar := getD o "raw_text" (jstr "N/A")
  let obs_time :=
    if pyIn "observation_time" o then
      match reformatObsTime (getD o "observation_time" jnull) with
      | some s => s
      | none => pyStr (getD o "observation_time" jnull)
    else "N/A"
  let temp_c := getD o "temp_c" (jstr "N/A")
  let wind_speed := getD o "wind_speed_kt" (jstr "N/A")
  let wind_direction := getD o "wind_dir_degrees" (jstr "N/A")
  let wind_gust := getD o "wind_gust_kt" (jstr "")
  let visibility := aviationweatherVisibility o
  let clouds ← aviationweatherClouds o
  let wind_info := windInfo wind_direction wind_speed wind_gust
  .ok [headerLine,
    "⏰ Observed: " ++ obs_time,
    "🌡️ Temperature: " ++ pyStr temp_c ++ "°C",
    "💨 Wind: " ++ wind_info,
    "👁️ Visibility: " ++ visibility,
    "☁️ Clouds: " ++ clouds,
    "📊 Raw METAR: " ++ pyStr raw_metar]

/-- Parser for the fallback (AVIATIONWEATHER.GOV) schema: the joined
seven-line report, or on any extraction failure the degraded single line
built from the `"raw_text"` field (lines 222-225). -/
def parse_aviationweather_metar (o : Obj) : String :=
  match aviationweatherResponse o with
  | .ok lines => String.intercalate "\n\n" lines
  | .error _ =>
    "Gatwick METAR: " ++ pyStr (getD o "raw_text" (jstr "Data unavailable"))

/-- Schema dispatch of `parse_metar_for_human` (lines 83-101): the fallback
parser exactly when the `"raw_text"` marker key is present.  Both branches
are total on dict inputs, so the source's outer `except` (the
`raw_text`/`raw`/apology cascade) is unreachable for them and has no
residue here. -/
def parse_metar_for_human (o : Obj) : String :=
  if pyIn "raw_text" o then parse_aviationweather_metar o
  else parse_checkwx_metar o

/-! ## The orchestrating fetchers

`get_gatwick_metar` / `get_gatwick_metar_fallback` are modelled over an
abstract outcome of each HTTP request: either a response with a status code
and decoded JSON body, or a raised network error/timeout.  A configured
API key is a truthy `CHECKWX_API_KEY` value. -/

/-- Outcome of one outbound HTTP request. -/
inductive HttpOutcome where
  | success (status : Nat) (body : JVal)
  | netError

/-- Python `v > 0` as used on `data.get("results", 0)`: numbers compare
numerically, booleans as 0/1, anything else raises `TypeError`. -/
def pyGtZero (v : JVal) : Except Unit Bool :=
  match v with
  | jnum d => .ok (d.m > 0)
  | jbool b => .ok b
  | _ => .error ()

/-- Python subscription `v[k]` with a string key: raises `KeyError` when
missing and `TypeError` on non-dicts. -/
def pyItem (v : JVal) (k : String) : Except Unit JVal :=
  match v with
  | jobj fs =>
    match List.find? (fun p => p.1 == k) fs with
    | some p => .ok p.2
    | none => .error ()
  | _ => .error ()

/-- Python subscription `v[0]`: first element of a list (or first character
of a string); raises on empty sequences and on other values (JSON object
keys are strings, so `v[0]` on a dict raises `KeyError`). -/
def pyIndexZero (v : JVal) : Except Unit JVal :=
  match v with
  | jarr (x :: _) => .ok x
  | jstr s =>
    match s.data with
    | c :: _ => .ok (jstr (String.mk [c]))
    | [] => .error ()
  | _ => .error ()

/-- Body handling of `get_gatwick_metar_fallback` (lines 59-64):
`data[0]` if `data and len(data) > 0`, else `None`; `len()` on a
non-sized value raises. -/
def fallbackFirst (body : JVal) : Except Unit (Option JVal) :=
  if truthy body then
    match body with
    | jarr xs =>
      match xs with
      | x :: _ => .ok (some x)
      | [] => .ok none
    | jstr s =>
      match s.data with
      | c :: _ => .ok (some (jstr (String.mk [c])))
      | [] => .ok none
    | _ => .error ()
  else .ok none

/-- Fallback fetcher `get_gatwick_metar_fallback` (lines 47-71): first
result of an HTTP 200 array body; `None` on an empty result set, a non-200
status, or any raised error (the single `except` returns `None`). -/
def get_gatwick_metar_fallback (fb : HttpOutcome) : Option JVal :=
  match fb with
  | .netError => none
  | .success status body =>
    if status = 200 then
      match fallbackFirst body with
      | .ok r => r
      | .error _ => none
    else none

/-- Primary-response handling of `get_gatwick_metar` (lines 30-40), as the
source's control flow reads: `.ok (some v)` is a 200 response delivering
`data["data"][0]`; `.ok none` is the 200-with-zero-results branch that
returns `None` directly; `.error` covers every path that proceeds to the
fallback (a non-200 status, a raised network error, or a raised extraction
error inside the 200 branch). -/
def primaryFetch (resp : HttpOutcome) : Except Unit (Option JVal) :=
  match resp with
  | .netError => .error ()
  | .success status body =>
    if status = 200 then do
      let results ← jget body "results" (jnum ⟨0, 0⟩)
      let pos ← pyGtZero results
      if pos then do
        let d ← pyItem body "data"
        let x ← pyIndexZero d
        .ok (some x)
      else .ok none
    else .error ()

/-- Orchestrating fetcher `get_gatwick_metar` (lines 14-45): with no
(truthy) API key configured it goes straight to the fallback; otherwise it
issues the primary request and falls back on a non-200 status or a raised
error — but returns `None` directly on 200-with-zero-results. -/
def get_gatwick_metar (keyConfigured : Bool) (primary fallback : HttpOutcome) :
    Option JVal :=
  if !keyConfigured then get_gatwick_metar_fallback fallback
  else
    match primaryFetch primary with
    | .ok r => r
    | .error _ => get_gatwick_metar_fallback fallback

/-- Instrumented orchestrator: the result together with how many HTTP
requests were issued to the primary and to the fallback provider (a request
that raises still counts as issued). -/
def get_gatwick_metar_instrumented (keyConfigured : Bool)
    (primary fallback : HttpOutcome) : Option JVal × Nat × Nat :=
  if !keyConfigured then (get_gatwick_metar_fallback fallback, 0, 1)
  else
    match primaryFetch primary with
    | .ok r => (r, 1, 0)
    | .error _ => (get_gatwick_metar_fallback fallback, 1, 1)

/-- Fixed reply of `app.py` (line 46) when `get_gatwick_metar` yields no
data. -/
def noDataReply : String :=
  "Sorry, I couldn\x27t retrieve the Gatwick METAR data at the moment. Please try again later."

/-- Reply the webhook sends on a METAR-trigger message, as a function of
the fetched observation (restricted to the dict-or-`None` shapes the
fetchers deliver from JSON object results; `if metar_data:` is Python
truthiness, so an empty dict also takes the no-data reply). -/
def webhookReply (m : Option Obj) : String :=
  match m with
  | some fs => if fs.isEmpty then noDataReply else parse_metar_for_human fs
  | none => noDataReply

/-- Whether the pattern occurs at the head of the character list. -/
def leadsWith : List Char → List Char → Bool
  | _, [] => true
  | [], _ :: _ => false
  | c :: cs, p :: ps => c == p ∧ leadsWith cs ps

/-- Whether the pattern occurs anywhere in the character list. -/
def containsChars (pat : List Char) : List Char → Bool
  | [] => leadsWith [] pat
  | c :: rest => leadsWith (c :: rest) pat ∨ containsChars pat rest

/-- Substring test on strings. -/
def strContains (s pat : String) : Bool := containsChars pat.data s.data

example : strContains "abcd" "bc" = true := by decide
example : strContains "abcd" "bd" = false := by decide
example : strContains noDataReply headerLine = false := by decide

/-! ## Shared lemmas -/

theorem ebind_ok {A B : Type} (x : A) (f : A → Except Unit B) :
    (Except.ok x >>= f) = f x := rfl

theorem ebind_err {A B : Type} (f : A → Except Unit B) :
    ((Except.error () : Except Unit A) >>= f) = .error () := rfl

/-- A string extended on the right of a nonempty literal is nonempty. -/
theorem append_ne_empty (p t : String) (hp : p.data ≠ []) : p ++ t ≠ "" := by
  intro h
  have hd : (p ++ t).data = p.data ++ t.data := rfl
  rw [h] at hd
  exact hp (List.append_eq_nil.mp hd.symm).1

/-- Variant of `append_ne_empty` for a line with text on both sides. -/
theorem append3_ne_empty (p t u : String) (hp : p.data ≠ []) :
    p ++ t ++ u ≠ "" := by
  refine append_ne_empty (p ++ t) u ?_
  intro hx
  have hd : (p ++ t).data = p.data ++ t.data := rfl
  rw [hx] at hd
  exact hp (List.append_eq_nil.mp hd.symm).1

/-- Every successful primary-schema extraction yields exactly the seven
display lines, in order, with their fixed markers. -/
theorem checkwxResponse_shape (o : Obj) (ls : List String)
    (h : checkwxResponse o = .ok ls) :
    ∃ a b c d e f, ls = [headerLine,
      "⏰ Observed: " ++ a,
      "🌡️ Temperature: " ++ b ++ "°C",
      "💨 Wind: " ++ c,
      "👁️ Visibility: " ++ d,
      "☁️ Clouds: " ++ e,
      "📊 Raw METAR: " ++ f] := by
  unfold checkwxResponse at h
  cases h1 : jget (getD o "temperature" (JVal.jobj [])) "celsius" (JVal.jstr "N/A") with
  | error e => cases e; simp only [h1, ebind_err] at h; exact Except.noConfusion h
  | ok temp =>
  simp only [h1, ebind_ok] at h
  cases h2 : jget (getD o "wind" (JVal.jobj [])) "speed_kts" (JVal.jstr "N/A") with
  | error e => cases e; simp only [h2, ebind_err] at h; exact Except.noConfusion h
  | ok ws =>
  simp only [h2, ebind_ok] at h
  cases h3 : jget (getD o "wind" (JVal.jobj [])) "degrees" (JVal.jstr "N/A") with
  | error e => cases e; simp only [h3, ebind_err] at h; exact Except.noConfusion h
  | ok wd =>
  simp only [h3, ebind_ok] at h
  cases h4 : jget (getD o "wind" (JVal.jobj [])) "gust_kts" (JVal.jstr "") with
  | error e => cases e; simp only [h4, ebind_err] at h; exact Except.noConfusion h
  | ok wg =>
  simp only [h4, ebind_ok] at h
  cases h5 : jget (getD o "visibility" (JVal.jobj [])) "meters" (JVal.jstr "N/A") with
  | error e => cases e; simp only [h5, ebind_err] at h; exact Except.noConfusion h
  | ok vis =>
  simp only [h5, ebind_ok] at h
  cases h6 : checkwxVisibility vis with
  | error e => cases e; simp only [h6, ebind_err] at h; exact Except.noConfusion h
  | ok vk =>
  simp only [h6, ebind_ok] at h
  cases h7 : checkwxClouds o with
  | error e => cases e; simp only [h7, ebind_err] at h; exact Except.noConfusion h
  | ok cl =>
  simp only [h7, ebind_ok] at h
  exact ⟨_, _, _, _, _, _, ((Except.ok.injEq _ _).mp h).symm⟩

/-- Every successful fallback-schema extraction yields exactly the seven
display lines, in order, with their fixed markers. -/
theorem aviationweatherResponse_shape (o : Obj) (ls : List String)
    (h : aviationweatherResponse o = .ok ls) :
    ∃ a b c d e f, ls = [headerLine,
      "⏰ Observed: " ++ a,
      "🌡️ Temperature: " ++ b ++ "°C",
      "💨 Wind: " ++ c,
      "👁️ Visibility: " ++ d,
      "☁️ Clouds: " ++ e,
      "📊 Raw METAR: " ++ f] := by
  unfold aviationweatherResponse at h
  cases h1 : aviationweatherClouds o with
  | error e => cases e; simp only [h1, ebind_err] at h; exact Except.noConfusion h
  | ok cl =>
  simp only [h1, ebind_ok] at h
  exact ⟨_, _, _, _, _, _, ((Except.ok.injEq _ _).mp h).symm⟩

/-- The seven fixed line markers are nonempty, so each display line is a
nonempty string. -/
theorem shaped_lines_nonempty (ls : List String)
    (h : ∃ a b c d e f, ls = [headerLine,
      "⏰ Observed: " ++ a,
      "🌡️ Temperature: " ++ b ++ "°C",
      "💨 Wind: " ++ c,
      "👁️ Visibility: " ++ d,
      "☁️ Clouds: " ++ e,
      "📊 Raw METAR: " ++ f]) :
    ls.length = 7 ∧ ls.head? = some headerLine ∧ ∀ l ∈ ls, l ≠ "" := by
  obtain ⟨a, b, c, d, e, f, rfl⟩ := h
  refine ⟨rfl, rfl, ?_⟩
  intro l hl
  simp only [List.mem_cons, List.not_mem_nil, or_false] at hl
  rcases hl with rfl | rfl | rfl | rfl | rfl | rfl | rfl
  · decide
  · exact append_ne_empty _ _ (by decide)
  · exact append3_ne_empty _ _ _ (by decide)
  · exact append_ne_empty _ _ (by decide)
  · exact append_ne_empty _ _ (by decide)
  · exact append_ne_empty _ _ (by decide)
  · exact append_ne_empty _ _ (by decide)

/-! ## Claim C1 — primary failure modes and the fallback -/

/-- C1 as stated is false at this input: an HTTP 200 primary response with
a zero result count makes `get_gatwick_metar` return `None` directly, while
`get_gatwick_metar_fallback` would have delivered an observation. -/
theorem C1_counterexample :
    get_gatwick_metar true
      (.success 200 (JVal.jobj [("results", JVal.jnum ⟨0, 0⟩)]))
      (.success 200 (JVal.jarr [JVal.jobj [("raw_text", JVal.jstr "EGKK 010520Z 27015KT")]])) =
      none ∧
    get_gatwick_metar_fallback
      (.success 200 (JVal.jarr [JVal.jobj [("raw_text", JVal.jstr "EGKK 010520Z 27015KT")]])) =
      some (JVal.jobj [("raw_text", JVal.jstr "EGKK 010520Z 27015KT")]) ∧
    (none : Option JVal) ≠ some (JVal.jobj [("raw_text", JVal.jstr "EGKK 010520Z 27015KT")]) :=
  ⟨rfl, rfl, fun h => Option.noConfusion h⟩

/-- C1 amended: a missing API key, a non-200 primary response, and a raised
network error all make `get_gatwick_metar` return exactly what
`get_gatwick_metar_fallback` returns; but an HTTP 200 primary response
whose result count is not positive makes it return `None` without
attempting the fallback. -/
theorem C1_failure_fallback (fb : HttpOutcome) :
    (∀ p, get_gatwick_metar false p fb = get_gatwick_metar_fallback fb) ∧
    (∀ s b, s ≠ 200 →
      get_gatwick_metar true (.success s b) fb = get_gatwick_metar_fallback fb) ∧
    (get_gatwick_metar true .netError fb = get_gatwick_metar_fallback fb) ∧
    (∀ b r, jget b "results" (JVal.jnum ⟨0, 0⟩) = .ok r → pyGtZero r = .ok false →
      get_gatwick_metar true (.success 200 b) fb = none) := by
  refine ⟨fun p => rfl, fun s b hs => ?_, rfl, fun b r h1 h2 => ?_⟩
  · simp [get_gatwick_metar, primaryFetch, hs]
  · simp [get_gatwick_metar, primaryFetch, h1, h2, ebind_ok]

/-- Closed instance of `C1_failure_fallback`: a 401 status and a
zero-result 200 body, against a fallback that delivers one observation. -/
theorem C1_failure_fallback_witness :
    get_gatwick_metar true (.success 401 JVal.jnull)
      (.success 200 (JVal.jarr [JVal.jobj []])) =
      get_gatwick_metar_fallback (.success 200 (JVal.jarr [JVal.jobj []])) ∧
    get_gatwick_metar true
      (.success 200 (JVal.jobj [("results", JVal.jnum ⟨0, 0⟩)]))
      (.success 200 (JVal.jarr [JVal.jobj []])) = none :=
  ⟨(C1_failure_fallback _).2.1 401 JVal.jnull (by decide),
   (C1_failure_fallback _).2.2.2 (JVal.jobj [("results", JVal.jnum ⟨0, 0⟩)])
     (JVal.jnum ⟨0, 0⟩) rfl rfl⟩

/-! ## Claim C4 — schema detection -/

/-- C4: schema detection is decided solely by presence of the `"raw_text"`
marker key — present dispatches to `parse_aviationweather_metar`, absent to
`parse_checkwx_metar`; the detection step is a total function (never
throws). -/
theorem C4_schema_detection (o : Obj) :
    (pyIn "raw_text" o = true →
      parse_metar_for_human o = parse_aviationweather_metar o) ∧
    (pyIn "raw_text" o = false →
      parse_metar_for_human o = parse_checkwx_metar o) := by
  constructor <;> intro h <;> simp [parse_metar_for_human, h]

/-- Closed instance of `C4_schema_detection` for one observation of each
shape. -/
theorem C4_schema_detection_witness :
    parse_metar_for_human [("raw_text", JVal.jstr "EGKK 010520Z")] =
      parse_aviationweather_metar [("raw_text", JVal.jstr "EGKK 010520Z")] ∧
    parse_metar_for_human [("raw", JVal.jstr "EGKK 010520Z")] =
      parse_checkwx_metar [("raw", JVal.jstr "EGKK 010520Z")] :=
  ⟨(C4_schema_detection _).1 (by decide), (C4_schema_detection _).2 (by decide)⟩

/-! ## Claim C6 — exactly two tiers, one attempt each -/

/-- C6: each invocation issues at most one primary and at most one fallback
HTTP request; a primary success with data never reaches the fallback; with
no API key configured the fallback is issued exactly once and the primary
never; and the instrumented orchestrator computes the same result as
`get_gatwick_metar` (so the counts speak about it). -/
theorem C6_two_tier (k : Bool) (p f : HttpOutcome) :
    (get_gatwick_metar_instrumented k p f).2.1 ≤ 1 ∧
    (get_gatwick_metar_instrumented k p f).2.2 ≤ 1 ∧
    (∀ v, primaryFetch p = .ok (some v) → k = true →
      (get_gatwick_metar_instrumented k p f).2.2 = 0) ∧
    (k = false →
      (get_gatwick_metar_instrumented k p f).2.1 = 0 ∧
      (get_gatwick_metar_instrumented k p f).2.2 = 1) ∧
    (get_gatwick_metar_instrumented k p f).1 = get_gatwick_metar k p f := by
  cases k with
  | false =>
    exact ⟨Nat.zero_le 1, Nat.le_refl 1, fun v hv hk => Bool.noConfusion hk,
      fun _ => ⟨rfl, rfl⟩, rfl⟩
  | true =>
    cases h : primaryFetch p with
    | ok r =>
      have e1 : get_gatwick_metar_instrumented true p f = (r, 1, 0) := by
        simp [get_gatwick_metar_instrumented, h]
      have e2 : get_gatwick_metar true p f = r := by
        simp [get_gatwick_metar, h]
      rw [e1, e2]
      exact ⟨Nat.le_refl 1, Nat.zero_le 1, fun _ _ _ => rfl,
        fun hk => Bool.noConfusion hk, rfl⟩
    | error e =>
      have e1 : get_gatwick_metar_instrumented true p f =
          (get_gatwick_metar_fallback f, 1, 1) := by
        simp [get_gatwick_metar_instrumented, h]
      have e2 : get_gatwick_metar true p f = get_gatwick_metar_fallback f := by
        simp [get_gatwick_metar, h]
      rw [e1, e2]
      exact ⟨Nat.le_refl 1, Nat.le_refl 1, fun _ hv _ => Except.noConfusion hv,
        fun hk => Bool.noConfusion hk, rfl⟩

/-- Closed instance of `C6_two_tier`: a primary success with one result
never issues the fallback request. -/
theorem C6_two_tier_witness :
    (get_gatwick_metar_instrumented true
      (.success 200 (JVal.jobj [("results", JVal.jnum ⟨1, 0⟩),
        ("data", JVal.jarr [JVal.jobj [("raw", JVal.jstr "EGKK")]])]))
      .netError).2.2 = 0 :=
  (C6_two_tier true _ .netError).2.2.1 (JVal.jobj [("raw", JVal.jstr "EGKK")]) rfl rfl

/-! ## Claim C9 — both sources fail -/

/-- C9: when the primary cannot deliver an observation (any failure mode,
or no configured key) and the fallback fetch yields `None`, the
orchestrator returns `None`, and the webhook's reply for a `None`
observation is the fixed human-readable apology — which does not contain
the report header line (nor the plane emoji at all). -/
theorem C9_all_sources_failed (k : Bool) (p f : HttpOutcome)
    (hp : k = true → ∀ v, primaryFetch p ≠ .ok (some v))
    (hf : get_gatwick_metar_fallback f = none) :
    get_gatwick_metar k p f = none ∧
    webhookReply none = noDataReply ∧
    strContains noDataReply headerLine = false ∧
    strContains noDataReply "🛫" = false := by
  refine ⟨?_, rfl, by decide, by decide⟩
  cases k with
  | false => simpa [get_gatwick_metar] using hf
  | true =>
    simp only [get_gatwick_metar, Bool.not_true, ite_false, if_false]
    cases h : primaryFetch p with
    | error e => simpa using hf
    | ok r =>
      cases r with
      | none => rfl
      | some v => exact absurd h (hp rfl v)

/-- Closed instance of `C9_all_sources_failed`: primary HTTP 500, fallback
network error. -/
theorem C9_all_sources_failed_witness :
    get_gatwick_metar true (.success 500 JVal.jnull) .netError = none ∧
    webhookReply none = noDataReply :=
  ⟨(C9_all_sources_failed true (.success 500 JVal.jnull) .netError
      (fun _ _ h => Except.noConfusion h) rfl).1,
   (C9_all_sources_failed true (.success 500 JVal.jnull) .netError
      (fun _ _ h => Except.noConfusion h) rfl).2.1⟩

/-! ## Claim C2 — the seven display lines -/

/-- C2 as stated is false at this input: an unparseable primary-schema
visibility makes the extraction raise, and the report degrades to one line
with neither the header nor any other of the seven display lines. -/
theorem C2_counterexample :
    parse_metar_for_human [("visibility", JVal.jobj [("meters", JVal.jstr "bad")])] =
      "Gatwick METAR: Data unavailable" ∧
    strContains (parse_metar_for_human
      [("visibility", JVal.jobj [("meters", JVal.jstr "bad")])]) headerLine = false ∧
    strContains (parse_metar_for_human
      [("visibility", JVal.jobj [("meters", JVal.jstr "bad")])]) "⏰" = false :=
  ⟨rfl, by decide, by decide⟩

/-- C2 amended: whenever schema-specific extraction succeeds, the report is
exactly the join of seven lines — header first, every line nonempty (each
carries its fixed marker, and unresolved fields show their placeholder
text, as the all-defaults report for the empty observation shows); when
extraction raises, the report instead degrades to a single-line raw-METAR
fallback and the seven-line guarantee does not hold. -/
theorem C2_seven_lines (o : Obj) :
    (∀ ls, pyIn "raw_text" o = false → checkwxResponse o = .ok ls →
      parse_metar_for_human o = String.intercalate "\n\n" ls ∧
      ls.length = 7 ∧ ls.head? = some headerLine ∧ ∀ l ∈ ls, l ≠ "") ∧
    (∀ ls, pyIn "raw_text" o = true → aviationweatherResponse o = .ok ls →
      parse_metar_for_human o = String.intercalate "\n\n" ls ∧
      ls.length = 7 ∧ ls.head? = some headerLine ∧ ∀ l ∈ ls, l ≠ "") ∧
    parse_metar_for_human [] =
      headerLine ++ "\n\n⏰ Observed: N/A\n\n🌡️ Temperature: N/A°C" ++
        "\n\n💨 Wind: N/A° at N/A knots\n\n👁️ Visibility: N/A" ++
        "\n\n☁️ Clouds: No cloud data\n\n📊 Raw METAR: N/A" := by
  refine ⟨fun ls hk h => ?_, fun ls hk h => ?_, rfl⟩
  · refine ⟨?_, shaped_lines_nonempty ls (checkwxResponse_shape o ls h)⟩
    simp [parse_metar_for_human, hk, parse_checkwx_metar, h]
  · refine ⟨?_, shaped_lines_nonempty ls (aviationweatherResponse_shape o ls h)⟩
    simp [parse_metar_for_human, hk, parse_aviationweather_metar, h]

/-- Closed instance of `C2_seven_lines` at one observation of each schema. -/
theorem C2_seven_lines_witness :
    (parse_metar_for_human [("raw", JVal.jstr "EGKK 010520Z")] =
      String.intercalate "\n\n" [headerLine, "⏰ Observed: N/A",
        "🌡️ Temperature: N/A°C", "💨 Wind: N/A° at N/A knots",
        "👁️ Visibility: N/A", "☁️ Clouds: No cloud data",
        "📊 Raw METAR: EGKK 010520Z"]) ∧
    (parse_metar_for_human [("raw_text", JVal.jstr "EGKK 010520Z")] =
      String.intercalate "\n\n" [headerLine, "⏰ Observed: N/A",
        "🌡️ Temperature: N/A°C", "💨 Wind: N/A° at N/A knots",
        "👁️ Visibility: N/A", "☁️ Clouds: No cloud data",
        "📊 Raw METAR: EGKK 010520Z"]) :=
  ⟨((C2_seven_lines [("raw", JVal.jstr "EGKK 010520Z")]).1 _ (by decide) rfl).1,
   ((C2_seven_lines [("raw_text", JVal.jstr "EGKK 010520Z")]).2.1 _ (by decide) rfl).1⟩

/-! ## Claim C3 — extraction failures never propagate -/

/-- C3 as stated is false at this input: with neither `"raw_text"` nor
`"raw"` present, a raising extraction produces the primary parser's own
fallback text, not the apology string the claim (quoting the unreachable
outer handler) prescribes. -/
theorem C3_counterexample :
    parse_metar_for_human [("visibility", JVal.jobj [("meters", JVal.jstr "unknown")])] =
      "Gatwick METAR: Data unavailable" ∧
    "Gatwick METAR: Data unavailable" ≠
      "Sorry, I couldn\x27t parse the METAR data properly." :=
  ⟨rfl, by decide⟩

/-- C3 amended: an extraction failure never propagates to the caller —
each schema parser's own handler absorbs it and returns the single-line
minimal report, sourced from `"raw_text"` on the fallback path and from
`"raw"` on the primary path, in both cases defaulting to the text
`"Data unavailable"` (not the outer apology string, whose handler is
unreachable for dict inputs). -/
theorem C3_extraction_absorbed (o : Obj) :
    (pyIn "raw_text" o = true → aviationweatherResponse o = .error () →
      parse_metar_for_human o =
        "Gatwick METAR: " ++ pyStr (getD o "raw_text" (JVal.jstr "Data unavailable"))) ∧
    (pyIn "raw_text" o = false → checkwxResponse o = .error () →
      parse_metar_for_human o =
        "Gatwick METAR: " ++ pyStr (getD o "raw" (JVal.jstr "Data unavailable"))) := by
  constructor <;> intro hk h <;>
    simp [parse_metar_for_human, hk, parse_aviationweather_metar, parse_checkwx_metar, h]

/-- Closed instance of `C3_extraction_absorbed`: a raising fallback-schema
observation (non-dict cloud layer) and a raising primary-schema observation
(unparseable visibility), each carrying its raw text. -/
theorem C3_extraction_absorbed_witness :
    parse_metar_for_human
      [("raw_text", JVal.jstr "EGKK 010520Z"), ("sky_condition", JVal.jarr [JVal.jnull])] =
      "Gatwick METAR: EGKK 010520Z" ∧
    parse_metar_for_human
      [("raw", JVal.jstr "EGKK 010520Z"), ("visibility", JVal.jobj [("meters", JVal.jstr "x")])] =
      "Gatwick METAR: EGKK 010520Z" :=
  ⟨(C3_extraction_absorbed _).1 (by decide) rfl,
   (C3_extraction_absorbed _).2 (by decide) rfl⟩

/-! ## Claim C5 — visibility unit conversion -/

/-- C5: visibility is converted to kilometres from either source.  In exact
decimal arithmetic, dividing `d` by 1000 is `⟨d.m, d.e + 3⟩` and
multiplying by 1.60934 is `⟨d.m * 160934, d.e + 5⟩`, each then rounded to
one decimal by `formatOneDecimal` and suffixed `" km"`; a fallback-schema
value whose conversion fails keeps the original value with the original
`" miles"` unit; and the spec's two worked examples evaluate through the
real parsers to `"9.0 km"` and `"9.7 km"`. -/
theorem C5_visibility_conversion :
    (∀ v d, pyFloat v = .ok d → isNA v = false →
      checkwxVisibility v = .ok (formatOneDecimal ⟨d.m, d.e + 3⟩ ++ " km")) ∧
    (∀ v d, pyFloat v = .ok d → isNA v = false →
      aviationweatherVisibility [("visibility_statute_mi", v)] =
        formatOneDecimal ⟨d.m * 160934, d.e + 5⟩ ++ " km") ∧
    (∀ v, pyFloat v = .error () → isNA v = false →
      aviationweatherVisibility [("visibility_statute_mi", v)] =
        pyStr v ++ " miles") ∧
    checkwxResponse [("visibility", JVal.jobj [("meters", JVal.jstr "9000")])] =
      .ok [headerLine, "⏰ Observed: N/A", "🌡️ Temperature: N/A°C",
        "💨 Wind: N/A° at N/A knots", "👁️ Visibility: 9.0 km",
        "☁️ Clouds: No cloud data", "📊 Raw METAR: N/A"] ∧
    aviationweatherVisibility [("visibility_statute_mi", JVal.jstr "6")] =
      "9.7 km" := by
  refine ⟨fun v d hf hna => ?_, fun v d hf hna => ?_, fun v hf hna => ?_, rfl, rfl⟩
  · simp [checkwxVisibility, hna, hf, ebind_ok]
  · have hg : getD [("visibility_statute_mi", v)] "visibility_statute_mi"
        (JVal.jstr "N/A") = v := rfl
    simp [aviationweatherVisibility, hg, hna, hf]
  · have hg : getD [("visibility_statute_mi", v)] "visibility_statute_mi"
        (JVal.jstr "N/A") = v := rfl
    simp [aviationweatherVisibility, hg, hna, hf]

/-- Closed instance of `C5_visibility_conversion` with the definitions
evaluated: 9000 m over both representation styles, and an unparseable
fallback value. -/
theorem C5_visibility_conversion_witness :
    checkwxVisibility (JVal.jstr "9000") = .ok "9.0 km" ∧
    aviationweatherVisibility [("visibility_statute_mi", JVal.jstr "6")] = "9.7 km" ∧
    aviationweatherVisibility [("visibility_statute_mi", JVal.jstr "hazy")] =
      "hazy miles" :=
  ⟨(C5_visibility_conversion.1 (JVal.jstr "9000") ⟨9000, 0⟩ rfl rfl).trans rfl,
   (C5_visibility_conversion.2.1 (JVal.jstr "6") ⟨6, 0⟩ rfl rfl).trans rfl,
   (C5_visibility_conversion.2.2.1 (JVal.jstr "hazy") rfl rfl).trans rfl⟩

/-! ## Claim C7 — wind line composition -/

/-- C7 as stated is false at this input: a numeric gust of 0 is present and
is not an empty value, yet the wind line carries no gusting suffix (the
source tests Python truthiness, and 0 is falsy). -/
theorem C7_counterexample :
    checkwxResponse [("wind", JVal.jobj [("degrees", JVal.jnum ⟨270, 0⟩),
      ("speed_kts", JVal.jnum ⟨15, 0⟩), ("gust_kts", JVal.jnum ⟨0, 0⟩)])] =
      .ok [headerLine, "⏰ Observed: N/A", "🌡️ Temperature: N/A°C",
        "💨 Wind: 270° at 15 knots", "👁️ Visibility: N/A",
        "☁️ Clouds: No cloud data", "📊 Raw METAR: N/A"] ∧
    strContains (parse_metar_for_human [("wind", JVal.jobj [("degrees", JVal.jnum ⟨270, 0⟩),
      ("speed_kts", JVal.jnum ⟨15, 0⟩), ("gust_kts", JVal.jnum ⟨0, 0⟩)])])
      "gusting" = false :=
  ⟨rfl, by decide⟩

/-- C7 amended: for both schemas the wind line is
`"{direction}° at {speed} knots"`, and the gusting suffix is appended iff
the gust value is truthy — present and neither empty, zero, null nor false
(so `gust=""` and `gust=0` give no suffix, `gust=25` gives one). -/
theorem C7_wind_line (dir spd gust : JVal) :
    checkwxResponse [("wind", JVal.jobj [("degrees", dir),
      ("speed_kts", spd), ("gust_kts", gust)])] =
      .ok [headerLine, "⏰ Observed: N/A", "🌡️ Temperature: N/A°C",
        "💨 Wind: " ++ pyStr dir ++ "° at " ++ pyStr spd ++ " knots" ++
          (if truthy gust then ", gusting to " ++ pyStr gust ++ " knots" else ""),
        "👁️ Visibility: N/A", "☁️ Clouds: No cloud data", "📊 Raw METAR: N/A"] ∧
    aviationweatherResponse [("raw_text", JVal.jstr "EGKK"),
      ("wind_dir_degrees", dir), ("wind_speed_kt", spd), ("wind_gust_kt", gust)] =
      .ok [headerLine, "⏰ Observed: N/A", "🌡️ Temperature: N/A°C",
        "💨 Wind: " ++ pyStr dir ++ "° at " ++ pyStr spd ++ " knots" ++
          (if truthy gust then ", gusting to " ++ pyStr gust ++ " knots" else ""),
        "👁️ Visibility: N/A", "☁️ Clouds: No cloud data", "📊 Raw METAR: EGKK"] ∧
    windInfo (JVal.jnum ⟨270, 0⟩) (JVal.jnum ⟨15, 0⟩) (JVal.jstr "") =
      "270° at 15 knots" ∧
    windInfo (JVal.jnum ⟨270, 0⟩) (JVal.jnum ⟨15, 0⟩) (JVal.jnum ⟨25, 0⟩) =
      "270° at 15 knots, gusting to 25 knots" :=
  ⟨rfl, rfl, rfl, rfl⟩

/-! ## Claim C8 — cloud layers -/

/-- The per-layer loop over dict layers collects, in order, exactly the
entries whose two fields are truthy. -/
theorem cloudEntries_objs (ck ak : String) (layers : List Obj) :
    cloudEntries ck ak (layers.map JVal.jobj) =
      .ok (layers.filterMap (fun fs =>
        if truthy (getD fs ck (JVal.jstr "")) ∧ truthy (getD fs ak (JVal.jstr "")) then
          some (pyStr (getD fs ck (JVal.jstr "")) ++ " at " ++
            pyStr (getD fs ak (JVal.jstr "")) ++ " ft")
        else none)) := by
  induction layers with
  | nil => rfl
  | cons fs rest ih =>
    simp only [List.map_cons, cloudEntries, jget, ebind_ok, ih, List.filterMap_cons]
    split <;> rfl

/-- C8 as stated is false at this input: a layer whose altitude is the
number 0 has both fields present and non-empty, yet contributes no entry
(the source tests truthiness), so the line shows `"No cloud data"` instead
of `"BKN at 0 ft"`. -/
theorem C8_counterexample :
    checkwxClouds [("clouds", JVal.jarr [JVal.jobj [("code", JVal.jstr "BKN"),
      ("base_feet_agl", JVal.jnum ⟨0, 0⟩)]])] = .ok "No cloud data" ∧
    ¬ checkwxClouds [("clouds", JVal.jarr [JVal.jobj [("code", JVal.jstr "BKN"),
      ("base_feet_agl", JVal.jnum ⟨0, 0⟩)]])] = .ok "BKN at 0 ft" :=
  ⟨rfl, fun h => by
    have := (Except.ok.injEq (α := String) (ε := Unit) _ _).mp ((rfl :
      checkwxClouds [("clouds", JVal.jarr [JVal.jobj [("code", JVal.jstr "BKN"),
        ("base_feet_agl", JVal.jnum ⟨0, 0⟩)]])] = .ok "No cloud data").symm.trans h)
    exact absurd this (by decide)⟩

/-- C8 amended: both schemas accept a list of layer dicts (and the fallback
schema additionally a single layer dict); a layer contributes
`"{cover} at {altitude} ft"` exactly when both fields are truthy (present
and neither empty, zero, null nor false); entries join in list order; and
when no layer qualifies — including an empty or absent cloud field — the
line shows `"No cloud data"`. -/
theorem C8_cloud_layers :
    (∀ layers : List Obj,
      checkwxClouds [("clouds", JVal.jarr (layers.map JVal.jobj))] =
        .ok (joinClouds (layers.filterMap (fun fs =>
          if truthy (getD fs "code" (JVal.jstr "")) ∧
              truthy (getD fs "base_feet_agl" (JVal.jstr "")) then
            some (pyStr (getD fs "code" (JVal.jstr "")) ++ " at " ++
              pyStr (getD fs "base_feet_agl" (JVal.jstr "")) ++ " ft")
          else none)))) ∧
    (∀ layers : List Obj,
      aviationweatherClouds [("sky_condition", JVal.jarr (layers.map JVal.jobj))] =
        .ok (joinClouds (layers.filterMap (fun fs =>
          if truthy (getD fs "sky_cover" (JVal.jstr "")) ∧
              truthy (getD fs "cloud_base_ft_agl" (JVal.jstr "")) then
            some (pyStr (getD fs "sky_cover" (JVal.jstr "")) ++ " at " ++
              pyStr (getD fs "cloud_base_ft_agl" (JVal.jstr "")) ++ " ft")
          else none)))) ∧
    (∀ fs : Obj,
      aviationweatherClouds [("sky_condition", JVal.jobj fs)] =
        .ok (if truthy (getD fs "sky_cover" (JVal.jstr "")) ∧
            truthy (getD fs "cloud_base_ft_agl" (JVal.jstr "")) then
          pyStr (getD fs "sky_cover" (JVal.jstr "")) ++ " at " ++
            pyStr (getD fs "cloud_base_ft_agl" (JVal.jstr "")) ++ " ft"
        else "No cloud data")) ∧
    checkwxClouds [("clouds", JVal.jarr [JVal.jobj [("code", JVal.jstr "BKN"),
      ("base_feet_agl", JVal.jstr "2500")]])] = .ok "BKN at 2500 ft" ∧
    checkwxClouds [] = .ok "No cloud data" ∧
    aviationweatherClouds [("sky_condition", JVal.jarr [])] = .ok "No cloud data" := by
  refine ⟨fun layers => ?_, fun layers => ?_, fun fs => ?_, rfl, rfl, rfl⟩
  · cases layers with
    | nil => rfl
    | cons fs rest =>
      have hc : checkwxClouds [("clouds", JVal.jarr ((fs :: rest).map JVal.jobj))] =
          (cloudEntries "code" "base_feet_agl" ((fs :: rest).map JVal.jobj) >>=
            fun layers => .ok (joinClouds layers)) := rfl
      rw [hc, cloudEntries_objs, ebind_ok]
  · cases layers with
    | nil => rfl
    | cons fs rest =>
      have hc : aviationweatherClouds
          [("sky_condition", JVal.jarr ((fs :: rest).map JVal.jobj))] =
          (cloudEntries "sky_cover" "cloud_base_ft_agl" ((fs :: rest).map JVal.jobj) >>=
            fun layers => .ok (joinClouds layers)) := rfl
      rw [hc, cloudEntries_objs, ebind_ok]
  · have hc : aviationweatherClouds [("sky_condition", JVal.jobj fs)] =
        (if truthy (getD fs "sky_cover" (JVal.jstr "")) ∧
            truthy (getD fs "cloud_base_ft_agl" (JVal.jstr "")) then
          .ok (pyStr (getD fs "sky_cover" (JVal.jstr "")) ++ " at " ++
            pyStr (getD fs "cloud_base_ft_agl" (JVal.jstr "")) ++ " ft")
        else .ok "No cloud data") := rfl
    rw [hc]
    split <;> rfl

/-! ## Claim C10 — asymmetric visibility degradation -/

/-- C10: a primary-schema visibility whose meters value does not parse as a
number raises inside `parse_checkwx_metar` and collapses the whole report
to the single line `"Gatwick METAR: {raw}"`, while the fallback schema
guards the conversion per-field and keeps the full seven-line report with
the original value and its `" miles"` unit. -/
theorem C10_visibility_asymmetry (raw s : String)
    (hbad : pyFloat (JVal.jstr s) = .error ()) (hna : (s == "N/A") = false) :
    parse_checkwx_metar [("raw", JVal.jstr raw),
      ("visibility", JVal.jobj [("meters", JVal.jstr s)])] =
      "Gatwick METAR: " ++ raw ∧
    aviationweatherResponse [("raw_text", JVal.jstr raw),
      ("visibility_statute_mi", JVal.jstr s)] =
      .ok [headerLine, "⏰ Observed: N/A", "🌡️ Temperature: N/A°C",
        "💨 Wind: N/A° at N/A knots", "👁️ Visibility: " ++ (s ++ " miles"),
        "☁️ Clouds: No cloud data", "📊 Raw METAR: " ++ raw] := by
  have hvis : checkwxVisibility (JVal.jstr s) = .error () := by
    simp [checkwxVisibility, isNA, hna, hbad, ebind_err]
  constructor
  · have hresp : checkwxResponse [("raw", JVal.jstr raw),
        ("visibility", JVal.jobj [("meters", JVal.jstr s)])] = .error () := by
      have hstep : checkwxResponse [("raw", JVal.jstr raw),
          ("visibility", JVal.jobj [("meters", JVal.jstr s)])] =
          (checkwxVisibility (JVal.jstr s) >>= fun visibility_km =>
            checkwxClouds [("raw", JVal.jstr raw),
              ("visibility", JVal.jobj [("meters", JVal.jstr s)])] >>=
              fun clouds =>
            .ok [headerLine, "⏰ Observed: N/A", "🌡️ Temperature: N/A°C",
              "💨 Wind: N/A° at N/A knots", "👁️ Visibility: " ++ visibility_km,
              "☁️ Clouds: " ++ clouds, "📊 Raw METAR: " ++ raw]) := rfl
      rw [hstep, hvis, ebind_err]
    rw [parse_checkwx_metar, hresp]
    rfl
  · have hv : aviationweatherVisibility [("raw_text", JVal.jstr raw),
        ("visibility_statute_mi", JVal.jstr s)] = s ++ " miles" := by
      have hg : aviationweatherVisibility [("raw_text", JVal.jstr raw),
          ("visibility_statute_mi", JVal.jstr s)] =
          (if isNA (JVal.jstr s) then "N/A"
           else match pyFloat (JVal.jstr s) with
            | .ok q => formatOneDecimal ⟨q.m * 160934, q.e + 5⟩ ++ " km"
            | .error _ => pyStr (JVal.jstr s) ++ " miles") := rfl
      rw [hg, hbad]
      simp [isNA, hna, pyStr]
    have hstep : aviationweatherResponse [("raw_text", JVal.jstr raw),
        ("visibility_statute_mi", JVal.jstr s)] =
        .ok [headerLine, "⏰ Observed: N/A", "🌡️ Temperature: N/A°C",
          "💨 Wind: N/A° at N/A knots",
          "👁️ Visibility: " ++ aviationweatherVisibility [("raw_text", JVal.jstr raw),
            ("visibility_statute_mi", JVal.jstr s)],
          "☁️ Clouds: No cloud data", "📊 Raw METAR: " ++ raw] := rfl
    rw [hstep, hv]

/-- Closed instance of `C10_visibility_asymmetry` at the value
`"unknown"`. -/
theorem C10_visibility_asymmetry_witness :
    parse_checkwx_metar [("raw", JVal.jstr "EGKK 010520Z 27015KT"),
      ("visibility", JVal.jobj [("meters", JVal.jstr "unknown")])] =
      "Gatwick METAR: EGKK 010520Z 27015KT" ∧
    aviationweatherResponse [("raw_text", JVal.jstr "EGKK 010520Z 27015KT"),
      ("visibility_statute_mi", JVal.jstr "unknown")] =
      .ok [headerLine, "⏰ Observed: N/A", "🌡️ Temperature: N/A°C",
        "💨 Wind: N/A° at N/A knots", "👁️ Visibility: " ++ ("unknown" ++ " miles"),
        "☁️ Clouds: No cloud data", "📊 Raw METAR: EGKK 010520Z 27015KT"] := by
  have h := C10_visibility_asymmetry "EGKK 010520Z 27015KT" "unknown" rfl (by decide)
  exact ⟨h.1, h.2⟩
